import Mathlib

/-!
Shallow embedding of the aoc-input-build crate (src/lib.rs, src/error.rs).

The crate downloads Advent of Code puzzle inputs at build time.  Effectful
Rust operations are embedded by explicit oracles:
  - directory listings (std read_dir) become values of type Except Unit (List String)
    holding the file names of the entries (the source flattens Err entries and
    non-UTF8 names away, so the oracle carries the surviving names);
  - the HTTP transport (ureq get + body read) becomes an oracle from the
    request URL to Except Unit String;
  - file writes (std fs write) become an oracle from path and contents to
    Except Unit Unit;
  - the clock (jiff Zoned now) becomes a Zoned record carrying the instant as
    a Unix timestamp in seconds and the civil year in the system timezone,
    the two projections of jiff Zoned that the code uses.
Diagnostics printed as cargo build-script directives are collected in lists.
-/

namespace AocInputBuild

/-- Severity of a cargo build diagnostic line: cargo::error marks a fatal
condition, cargo::warning a non-fatal one. -/
inductive Severity where
  | error : Severity
  | warning : Severity
deriving DecidableEq, Repr

/-- The error type of src/error.rs.  The opaque payloads (std io Error,
ureq Error, the boxed release Zoned) are kept only as far as the code
inspects them: the file path or URL string, and the release instant and day
for the Date variant.  The Rust constructor named after the io module is
rendered IOError here. -/
inductive Error where
  | IOError : String → Error
  | Request : String → Error
  | Date : Int → Int → Error
deriving DecidableEq, Repr

/-- Error::fatal from src/error.rs lines 24-30. -/
def Error.fatal : Error → Bool
  | Error.IOError _ => true
  | Error.Request _ => true
  | Error.Date _ _ => false

/-- One cargo build-script diagnostic line.  report e is the line printed by
cargo_error; dayWarning is the println inside validate_day; yearError is the
println inside validate_year. -/
inductive Diagnostic where
  | report : Error → Diagnostic
  | dayWarning : Int → Diagnostic
  | yearError : Int → Diagnostic
deriving DecidableEq, Repr

/-- The severity of the cargo directive each diagnostic is printed with:
cargo_error picks cargo::error exactly when the error is fatal; validate_day
prints cargo::warning; validate_year prints cargo::error. -/
def Diagnostic.severity : Diagnostic → Severity
  | Diagnostic.report e => if e.fatal then Severity.error else Severity.warning
  | Diagnostic.dayWarning _ => Severity.warning
  | Diagnostic.yearError _ => Severity.error

/-- cargo_error from src/error.rs lines 80-92: unwraps an Ok value, and for
an Err prints it with severity chosen by Error::fatal and returns None.  The
printed line is returned as the second component. -/
def cargo_error {T : Type} (res : Except Error T) : Option T × List Diagnostic :=
  match res with
  | Except.ok t => (some t, [])
  | Except.error e => (none, [Diagnostic.report e])

/-- The two projections of a jiff Zoned value that src/lib.rs uses: ordering
of Zoned values compares the underlying instant (timestamp, modelled as Unix
seconds), and the year accessor gives the civil year in the carried
timezone (for the today value, the system timezone). -/
structure Zoned where
  timestamp : Int
  year : Int
deriving DecidableEq, Repr

/-- Days from the Unix epoch 1970-01-01 to the proleptic-Gregorian civil
date (y, m, d); the standard era-based civil-calendar algorithm.  All
divisions here act on non-negative operands for every year this crate
admits. -/
def daysFromCivil (y m d : Int) : Int :=
  let yAdj : Int := if m ≤ 2 then y - 1 else y
  let era : Int := (if 0 ≤ yAdj then yAdj else yAdj - 399) / 400
  let yoe : Int := yAdj - era * 400
  let mp : Int := if 2 < m then m - 3 else m + 9
  let doy : Int := (153 * mp + 2) / 5 + d - 1
  let doe : Int := yoe * 365 + yoe / 4 - yoe / 100 + doy
  era * 146097 + doe - 719468

/-- The instant (Unix seconds) of the puzzle release built in fetch_input:
civil datetime (year, 12, day, 0, 0, 0, 0) placed in the America/New_York
timezone.  Throughout December that timezone observes EST, UTC minus five
hours (daylight saving ends in early November), so local midnight is 05:00
UTC: 18000 seconds past midnight UTC of the same civil date. -/
def releaseInstant (year day : Int) : Int :=
  daysFromCivil year 12 day * 86400 + 18000

/-- The fixed base URL constant of fetch_input. -/
def AOC_URL : String := "https://adventofcode.com"

/-- The URL formatted by fetch_input for one year and day. -/
def aocInputUrl (year day : Int) : String :=
  AOC_URL ++ "/" ++ toString year ++ "/day/" ++ toString day ++ "/input"

/-- fetch_input from src/lib.rs lines 46-72.  The first component is the
returned Result; the second lists the network requests the call issued (the
URL passed to the ureq get), empty when the release gate rejects.  The
transport and body decoding are the oracle net: an Err outcome stands for a
transport failure, a non-success status, or a body-decoding failure, all of
which the source maps to the Request error carrying the URL. -/
def fetch_input (net : String → Except Unit String) (today : Zoned)
    (session_cookie : String) (year day : Int) :
    Except Error String × List String :=
  let puzzle_release := releaseInstant year day
  if today.timestamp < puzzle_release then
    (Except.error (Error.Date day puzzle_release), [])
  else
    let url := aocInputUrl year day
    match net url with
    | Except.ok body => (Except.ok body, [url])
    | Except.error _ => (Except.error (Error.Request url), [url])

/-- validate_year from src/lib.rs lines 74-85: the year must lie in the
inclusive range from 2015 to the current year.  The cargo::error line the
source prints in the failing branch is emitted by download_inputs in this
embedding (observable behavior is unchanged). -/
def validate_year (today : Zoned) (year : Int) : Bool :=
  2015 ≤ year && year ≤ today.year

/-- validate_day from src/lib.rs lines 87-104, with the match fallthrough
of the source kept: a year at least 2025 combined with a day outside 1..12
hits the first arm; otherwise a day outside 1..25 hits the second arm;
otherwise the day is valid.  The cargo::warning lines of the failing arms
are emitted by processDay in this embedding. -/
def validate_day (year day : Int) : Bool :=
  if 2025 ≤ year ∧ ¬(1 ≤ day ∧ day ≤ 12) then false
  else if ¬(1 ≤ day ∧ day ≤ 25) then false
  else true

/-- The stem of a file name, as the std Path file_stem method computes it
for a plain file-name component: the whole name when it contains no dot or
when its only dot is the leading character (and the special name of two
dots is its own stem); otherwise the part before the final dot.  Returns
none only for the empty name. -/
def file_stem (name : String) : Option String :=
  match name.data with
  | [] => none
  | cs =>
    if cs = ['.', '.'] then some (String.mk cs)
    else
      match (cs.reverse.span (fun c => !(c == '.'))).2 with
      | [] => some (String.mk cs)
      | _ :: beforeRev =>
        if beforeRev = [] then some (String.mk cs)
        else some (String.mk beforeRev.reverse)

/-- The compiled day-name pattern of list_days: a match of the anchored
regular expression day[0-2][0-9], i.e. the three letters d a y followed by
one character with code point between 48 and 50 (digits 0 to 2) and one
with code point between 48 and 57 (digits 0 to 9), and nothing else. -/
def DAY_REGEX (s : String) : Bool :=
  match s.data with
  | ['d', 'a', 'y', c1, c2] =>
    (48 ≤ c1.toNat && c1.toNat ≤ 50) && (48 ≤ c2.toNat && c2.toNat ≤ 57)
  | _ => false

/-- list_days from src/lib.rs lines 31-44: list the src subdirectory of the
root (the listing is the oracle read_dir; an Err becomes the fatal IOError
carrying the directory path), take the stem of every entry name, and keep
exactly the stems matching the day pattern.  Entries whose read failed or
whose name is not UTF8 are dropped by the source before stemming, so the
oracle carries the surviving names. -/
def list_days (read_dir : Except Unit (List String)) (root_dir : String) :
    Except Error (List String) :=
  let src_dir := root_dir ++ "/src"
  match read_dir with
  | Except.error _ => Except.error (Error.IOError src_dir)
  | Except.ok entries =>
    Except.ok ((entries.filterMap file_stem).filter DAY_REGEX)

/-- The numeric value of an ASCII digit character, none for any other
character (48 and 57 are the code points of the digits 0 and 9). -/
def digitVal (c : Char) : Option Nat :=
  if 48 ≤ c.toNat ∧ c.toNat ≤ 57 then some (c.toNat - 48) else none

/-- Base-ten accumulation over a digit list, failing on any non-digit. -/
def parseDigitsAux : List Char → Nat → Option Nat
  | [], acc => some acc
  | c :: rest, acc =>
    match digitVal c with
    | some d => parseDigitsAux rest (acc * 10 + d)
    | none => none

/-- The digit run of a decimal literal: at least one character, all ASCII
digits, read in base ten. -/
def parseDigits : List Char → Option Nat
  | [] => none
  | cs => parseDigitsAux cs 0

/-- The std str parse method at the signed eight-bit integer type, as the
source calls it on the day suffix: an optional sign, then at least one
digit, rejecting any other character; values beyond the type range 127
(or 128 below zero) fail the overflow check.  Incremental overflow
detection in the library agrees with this final-value range check for
non-negative base-ten accumulation. -/
def parse_i8 (s : String) : Option Int :=
  match s.data with
  | [] => none
  | c :: cs =>
    if c = '+' then
      (parseDigits cs).bind (fun n => if n ≤ 127 then some (n : Int) else none)
    else if c = '-' then
      (parseDigits cs).bind (fun n => if n ≤ 128 then some (-(n : Int)) else none)
    else
      (parseDigits (c :: cs)).bind (fun n => if n ≤ 127 then some (n : Int) else none)

/-- Byte slicing of a Rust string from a byte offset, modelled as dropping
the first n characters; the two agree on ASCII content, which every call
site in the source guarantees (the sliced names all match the day
pattern). -/
def strSliceFrom (s : String) (n : Nat) : String := String.mk (s.data.drop n)

/-- The observable events of processing one declared day in the loop of
download_inputs: the diagnostic lines printed, the network requests issued
(URLs), the write calls issued (path and contents handed to the std write
function, whether or not the write succeeded), the paths written
successfully, and whether the body panicked (the expect on the day-number
parse). -/
structure DayTrace where
  diags : List Diagnostic
  requests : List String
  writeCalls : List (String × String)
  writes : List String
  panicked : Bool
deriving DecidableEq, Repr

/-- The empty trace: a day that produced no observable event. -/
def DayTrace.nil : DayTrace := ⟨[], [], [], [], false⟩

/-- Concatenation of day traces in loop order. -/
def DayTrace.append (a b : DayTrace) : DayTrace :=
  ⟨a.diags ++ b.diags, a.requests ++ b.requests,
   a.writeCalls ++ b.writeCalls, a.writes ++ b.writes,
   a.panicked || b.panicked⟩

/-- The body of the per-day loop of download_inputs, src/lib.rs lines
154-172: skip a cached day; parse the byte suffix of the name from offset 3
as a signed eight-bit integer, the expect on failure being a panic; skip an
out-of-range day with the warning printed by validate_day; fetch, and on a
reported fetch failure move on; on fetched input, write the day file under
the download directory, reporting a write failure without further
effect. -/
def processDay (net : String → Except Unit String)
    (writeFile : String → String → Except Unit Unit)
    (today : Zoned) (year : Int) (formatted_token download_dir : String)
    (cached : List String) (day : String) : DayTrace :=
  if cached.contains day then DayTrace.nil
  else
    match parse_i8 (strSliceFrom day 3) with
    | none => ⟨[], [], [], [], true⟩
    | some n =>
      if !validate_day year n then ⟨[Diagnostic.dayWarning n], [], [], [], false⟩
      else
        let fr := fetch_input net today formatted_token year n
        match cargo_error fr.1 with
        | (none, ds) => ⟨ds, fr.2, [], [], false⟩
        | (some inp, ds) =>
          let file := download_dir ++ "/" ++ day ++ ".txt"
          match writeFile file inp with
          | Except.ok _ => ⟨ds, fr.2, [(file, inp)], [file], false⟩
          | Except.error _ =>
            ⟨ds ++ [Diagnostic.report (Error.IOError file)], fr.2,
             [(file, inp)], [], false⟩

/-- The per-day loop itself: traces accumulate in order, and a panic aborts
the remainder of the loop (a Rust panic in a build script ends the
process). -/
def runDays (f : String → DayTrace) : List String → DayTrace
  | [] => DayTrace.nil
  | d :: rest =>
    let t := f d
    if t.panicked then t else DayTrace.append t (runDays f rest)

/-- How a whole invocation of download_inputs ended: returned Some unit,
returned None after a fatal report, or panicked. -/
inductive RunOutcome where
  | completed : RunOutcome
  | earlyReturn : RunOutcome
  | panicked : RunOutcome
deriving DecidableEq, Repr

/-- The observable events of one invocation of download_inputs. -/
structure RunResult where
  diags : List Diagnostic
  requests : List String
  writeCalls : List (String × String)
  writes : List String
  outcome : RunOutcome
deriving DecidableEq, Repr

/-- download_inputs from src/lib.rs lines 120-175.  Oracles: readSrcDir is
the listing of the src subdirectory, downloadDirExists the existence test
on the input subdirectory, createDirResult the directory creation outcome
(consulted only when the directory is absent), readDownloadDir the listing
of the input subdirectory, net the HTTP transport, writeFile the file
writer.  The steps in source order: year validation (fatal cargo::error and
early return on failure), day discovery (fatal on listing failure),
download-directory creation (fatal on failure), cache listing (fatal on
failure, stems of the entries forming the cached set), then the per-day
loop over the discovered days with the session token formatted once. -/
def download_inputs
    (readSrcDir : Except Unit (List String))
    (downloadDirExists : Bool)
    (createDirResult : Except Unit Unit)
    (readDownloadDir : Except Unit (List String))
    (net : String → Except Unit String)
    (writeFile : String → String → Except Unit Unit)
    (today : Zoned) (root_dir token : String) (year : Int) : RunResult :=
  if !validate_year today year then
    ⟨[Diagnostic.yearError year], [], [], [], RunOutcome.earlyReturn⟩
  else
    match list_days readSrcDir root_dir with
    | Except.error e =>
      ⟨[Diagnostic.report e], [], [], [], RunOutcome.earlyReturn⟩
    | Except.ok days =>
      let download_dir := root_dir ++ "/input"
      let createFailed :=
        !downloadDirExists &&
          (match createDirResult with
           | Except.error _ => true
           | Except.ok _ => false)
      if createFailed then
        ⟨[Diagnostic.report (Error.IOError download_dir)], [], [], [],
         RunOutcome.earlyReturn⟩
      else
        match readDownloadDir with
        | Except.error _ =>
          ⟨[Diagnostic.report (Error.IOError download_dir)], [], [], [],
           RunOutcome.earlyReturn⟩
        | Except.ok cacheEntries =>
          let cached := cacheEntries.filterMap file_stem
          let formatted_token := "session=" ++ token
          let t := runDays
            (processDay net writeFile today year formatted_token download_dir cached)
            days
          ⟨t.diags, t.requests, t.writeCalls, t.writes,
           if t.panicked then RunOutcome.panicked else RunOutcome.completed⟩

/-! Concrete oracles and sample values used by witnesses and
counterexamples. -/

/-- A transport oracle for which every request succeeds. -/
def netOk : String → Except Unit String := fun _ => Except.ok ("puzzle input")

/-- A transport oracle for which every request fails. -/
def netFails : String → Except Unit String := fun _ => Except.error ()

/-- A transport oracle failing exactly on the 2024 day 1 URL. -/
def netScenario : String → Except Unit String := fun url =>
  if url = aocInputUrl 2024 1 then Except.error () else Except.ok ("puzzle input")

/-- A file-write oracle for which every write succeeds. -/
def writeOk : String → String → Except Unit Unit := fun _ _ => Except.ok ()

/-- A file-write oracle failing exactly on the day01 output path under the
sample root. -/
def writeFailsDay01 : String → String → Except Unit Unit := fun path _ =>
  if path = "root/input/day01.txt" then Except.error () else Except.ok ()

/-- Sample root directory string. -/
def sampleRoot : String := "root"

/-- Sample session token string. -/
def sampleToken : String := "tok"

/-- Sample cookie-header string. -/
def sampleCookie : String := "cookie"

/-- A sample clock: the release instant of 2024 day 3, with civil year
2024. -/
def sampleToday : Zoned := ⟨releaseInstant 2024 3, 2024⟩

/-- Sample source listing for the discovery claim. -/
def sampleSrcEntries : List String := ["day07.ext", "day31.ext", "notes.txt"]

/-- Source listing for the three-day isolation scenario. -/
def scenarioEntries : List String := ["day01.rs", "day12.rs", "day02.rs"]

/-- The day07 identifier. -/
def day07str : String := "day07"

/-- The output path of day01 under the sample root. -/
def day01txt : String := "root/input/day01.txt"

/-- The output path of day02 under the sample root. -/
def day02txt : String := "root/input/day02.txt"

/-- The path separator used by the day-file join. -/
def slashStr : String := "/"

/-- The extension appended to a day output file. -/
def txtSuffix : String := ".txt"

/-- The source subdirectory suffix. -/
def srcSuffix : String := "/src"

/-- The download subdirectory suffix. -/
def inputSuffix : String := "/input"

/-! Shared helper lemmas. -/

/-- A name matched by the day pattern is the three letters d a y followed
by a digit at most 2 and a digit. -/
theorem day_regex_shape (s : String) (hs : DAY_REGEX s = true) :
    ∃ c1 c2, s.data = ['d', 'a', 'y', c1, c2] ∧
      48 ≤ c1.toNat ∧ c1.toNat ≤ 50 ∧ 48 ≤ c2.toNat ∧ c2.toNat ≤ 57 := by
  unfold DAY_REGEX at hs
  split at hs
  case _ c1 c2 h =>
    refine ⟨c1, c2, h, ?_⟩
    simp only [Bool.and_eq_true, decide_eq_true_eq] at hs
    exact ⟨hs.1.1, hs.1.2, hs.2.1, hs.2.2⟩
  case _ => exact absurd hs (by simp)

/-- The numeric suffix of a name matched by the day pattern parses as a
signed eight-bit integer with value between 0 and 29. -/
theorem day_name_parse (s : String) (hs : DAY_REGEX s = true) :
    ∃ n : Int, parse_i8 (strSliceFrom s 3) = some n ∧ 0 ≤ n ∧ n ≤ 29 := by
  obtain ⟨c1, c2, hd, h1, h2, h3, h4⟩ := day_regex_shape s hs
  have hplus : c1 ≠ '+' := by
    intro h
    rw [h] at h1
    have : ('+').toNat = 43 := rfl
    omega
  have hminus : c1 ≠ '-' := by
    intro h
    rw [h] at h1
    have : ('-').toNat = 45 := rfl
    omega
  have hslice : strSliceFrom s 3 = String.mk [c1, c2] := by
    unfold strSliceFrom
    rw [hd]
    rfl
  refine ⟨(c1.toNat - 48) * 10 + (c2.toNat - 48), ?_, by omega, by omega⟩
  rw [hslice]
  show parse_i8 (String.mk [c1, c2]) = _
  unfold parse_i8
  simp only [String.data]
  rw [if_neg hplus, if_neg hminus]
  have hdv1 : digitVal c1 = some (c1.toNat - 48) := by
    unfold digitVal
    rw [if_pos ⟨h1, by omega⟩]
  have hdv2 : digitVal c2 = some (c2.toNat - 48) := by
    unfold digitVal
    rw [if_pos ⟨h3, h4⟩]
  unfold parseDigits parseDigitsAux
  rw [hdv1]
  unfold parseDigitsAux
  rw [hdv2]
  unfold parseDigitsAux
  simp only [Option.bind_some, Option.some_bind]
  rw [if_pos (by omega : (0 * 10 + (c1.toNat - 48)) * 10 + (c2.toNat - 48) ≤ 127)]
  simp only [Option.some.injEq]
  omega

/-- A day already in the cached set produces no observable event. -/
theorem processDay_cached (net : String → Except Unit String)
    (writeFile : String → String → Except Unit Unit) (today : Zoned)
    (year : Int) (tok dir : String) (cached : List String) (day : String)
    (h : cached.contains day = true) :
    processDay net writeFile today year tok dir cached day = DayTrace.nil := by
  unfold processDay
  rw [if_pos h]

/-- A day whose name suffix parses never hits the panic branch. -/
theorem processDay_not_panicked (net : String → Except Unit String)
    (writeFile : String → String → Except Unit Unit) (today : Zoned)
    (year : Int) (tok dir : String) (cached : List String) (day : String)
    (n : Int) (h : parse_i8 (strSliceFrom day 3) = some n) :
    (processDay net writeFile today year tok dir cached day).panicked = false := by
  simp only [processDay, h]
  repeat' split
  all_goals rfl

/-- The loop steps past any head day that did not panic. -/
theorem runDays_cons (f : String → DayTrace) (d : String) (rest : List String)
    (h : (f d).panicked = false) :
    runDays f (d :: rest) = DayTrace.append (f d) (runDays f rest) := by
  simp only [runDays, h, Bool.false_eq_true, if_false]

/-- A loop in which every day produces no event produces no event. -/
theorem runDays_all_nil (f : String → DayTrace) (days : List String)
    (h : ∀ d ∈ days, f d = DayTrace.nil) :
    runDays f days = DayTrace.nil := by
  induction days with
  | nil => rfl
  | cons d rest ih =>
    have hd := h d (List.mem_cons_self d rest)
    simp only [runDays, hd]
    rw [ih (fun x hx => h x (List.mem_cons_of_mem d hx))]
    rfl

/-- A loop in which no day panics does not panic. -/
theorem runDays_no_panic (f : String → DayTrace) (days : List String)
    (h : ∀ d ∈ days, (f d).panicked = false) :
    (runDays f days).panicked = false := by
  induction days with
  | nil => rfl
  | cons d rest ih =>
    rw [runDays_cons f d rest (h d (List.mem_cons_self d rest))]
    show ((f d).panicked || _) = false
    rw [h d (List.mem_cons_self d rest),
      ih (fun x hx => h x (List.mem_cons_of_mem d hx))]
    rfl

/-! Claim theorems. -/

/-- C7: day discovery returns exactly the filename stems of the source
directory that match the two-digit day pattern, silently ignoring every
other file; in particular the directory holding day07.ext, day31.ext and
notes.txt yields only the day07 identifier. -/
theorem list_days_matching_stems :
    (∀ (entries : List String) (root_dir : String) (days : List String)
       (s : String),
      list_days (Except.ok entries) root_dir = Except.ok days →
      (s ∈ days ↔ (∃ e ∈ entries, file_stem e = some s) ∧ DAY_REGEX s = true)) ∧
    list_days (Except.ok sampleSrcEntries) sampleRoot = Except.ok [day07str] := by
  constructor
  · intro entries root_dir days s h
    simp only [list_days, Except.ok.injEq] at h
    subst h
    simp only [List.mem_filter, List.mem_filterMap]
  · rfl

/-- C7 witness: the membership characterization evaluated on the sample
directory listing. -/
theorem list_days_matching_stems_witness :
    day07str ∈ [day07str] ↔
      (∃ e ∈ sampleSrcEntries, file_stem e = some day07str) ∧
      DAY_REGEX day07str = true :=
  list_days_matching_stems.1 sampleSrcEntries sampleRoot [day07str] day07str
    list_days_matching_stems.2

/-- C4: the release gate computes the release instant as local midnight of
day 5 of December 2024 in the America/New_York timezone, which is the Unix
instant 1733374800; a fetch with a clock strictly before it returns the
non-released Date signal without touching the network, and a fetch with a
clock at or after it never returns the Date signal and issues exactly the
one request for the 2024 day 5 URL. -/
theorem release_gate_2024_day5 :
    releaseInstant 2024 5 = 1733374800 ∧
    ∀ (net : String → Except Unit String) (cookie : String) (today : Zoned),
      (today.timestamp < 1733374800 →
        fetch_input net today cookie 2024 5 =
          (Except.error (Error.Date 5 1733374800), [])) ∧
      (1733374800 ≤ today.timestamp →
        (∀ (d r : Int),
          (fetch_input net today cookie 2024 5).1 ≠
            Except.error (Error.Date d r)) ∧
        (fetch_input net today cookie 2024 5).2 = [aocInputUrl 2024 5]) := by
  have hri : releaseInstant 2024 5 = 1733374800 := by decide
  refine ⟨hri, ?_⟩
  intro net cookie today
  constructor
  · intro hlt
    simp only [fetch_input, hri]
    rw [if_pos hlt]
  · intro hge
    simp only [fetch_input, hri]
    rw [if_neg (by omega)]
    rcases net (aocInputUrl 2024 5) with _ | body
    · exact ⟨fun d r h => Error.noConfusion (Except.error.inj h), rfl⟩
    · exact ⟨fun d r h => Except.noConfusion h, rfl⟩

/-- C4 witness: one second before the release instant the gate rejects, at
the release instant it admits and issues the request. -/
theorem release_gate_2024_day5_witness :
    fetch_input netOk ⟨1733374799, 2024⟩ sampleCookie 2024 5 =
      (Except.error (Error.Date 5 1733374800), []) ∧
    (fetch_input netOk ⟨1733374800, 2024⟩ sampleCookie 2024 5).2 =
      [aocInputUrl 2024 5] :=
  ⟨(release_gate_2024_day5.2 netOk sampleCookie ⟨1733374799, 2024⟩).1
      (by decide),
   ((release_gate_2024_day5.2 netOk sampleCookie ⟨1733374800, 2024⟩).2
      (by decide)).2⟩

/-- C5: day validation accepts exactly 1..25 for years before the 2025
cutoff and exactly 1..12 from the cutoff on; year 2026 day 13 fails while
year 2024 day 13 passes; a violation makes the loop body emit one
warning-severity line and produce no other event for that day, without
panicking, and the loop then continues with the remaining days. -/
theorem validate_day_range :
    (∀ year day : Int, validate_day year day = true ↔
      (if 2025 ≤ year then 1 ≤ day ∧ day ≤ 12 else 1 ≤ day ∧ day ≤ 25)) ∧
    validate_day 2026 13 = false ∧
    validate_day 2024 13 = true ∧
    (∀ n : Int, (Diagnostic.dayWarning n).severity = Severity.warning) ∧
    (∀ (net : String → Except Unit String)
       (writeFile : String → String → Except Unit Unit) (today : Zoned)
       (year : Int) (tok dir : String) (cached : List String) (day : String)
       (n : Int),
      cached.contains day = false →
      parse_i8 (strSliceFrom day 3) = some n →
      validate_day year n = false →
      processDay net writeFile today year tok dir cached day =
        ⟨[Diagnostic.dayWarning n], [], [], [], false⟩) ∧
    (∀ (f : String → DayTrace) (d : String) (rest : List String),
      (f d).panicked = false →
      runDays f (d :: rest) = DayTrace.append (f d) (runDays f rest)) := by
  refine ⟨?_, by decide, by decide, fun n => rfl, ?_, runDays_cons⟩
  · intro year day
    unfold validate_day
    split_ifs with h1 h2 h3 <;> simp_all
    omega
  · intro net writeFile today year tok dir cached day n hc hp hv
    simp only [processDay, hc, hp, hv, Bool.false_eq_true, if_false,
      Bool.not_false, if_true]

/-- C5 witness: year 2026 day 13 is rejected inside the loop body with a
single warning line, and the loop continues past such a day. -/
theorem validate_day_range_witness :
    processDay netOk writeOk sampleToday 2026 sampleToken sampleRoot []
        (String.mk ['d', 'a', 'y', '1', '3']) =
      ⟨[Diagnostic.dayWarning 13], [], [], [], false⟩ ∧
    runDays (fun _ => DayTrace.nil) (day07str :: []) =
      DayTrace.append DayTrace.nil (runDays (fun _ => DayTrace.nil) []) :=
  ⟨validate_day_range.2.2.2.2.1 netOk writeOk sampleToday 2026 sampleToken
      sampleRoot [] (String.mk ['d', 'a', 'y', '1', '3']) 13 (by decide)
      (by decide) (by decide),
   validate_day_range.2.2.2.2.2 (fun _ => DayTrace.nil) day07str [] rfl⟩

/-- C6: year validation accepts exactly the years from 2015 to the current
year; 2014 and the year after the current year both fail; and on a failing
year the whole run returns early with a single error-severity line, before
any discovery, caching, request, or write. -/
theorem validate_year_range :
    (∀ (today : Zoned) (year : Int),
      validate_year today year = true ↔ 2015 ≤ year ∧ year ≤ today.year) ∧
    (∀ today : Zoned, validate_year today 2014 = false ∧
      validate_year today (today.year + 1) = false) ∧
    (∀ year : Int, (Diagnostic.yearError year).severity = Severity.error) ∧
    (∀ (readSrcDir : Except Unit (List String)) (downloadDirExists : Bool)
       (createDirResult : Except Unit Unit)
       (readDownloadDir : Except Unit (List String))
       (net : String → Except Unit String)
       (writeFile : String → String → Except Unit Unit) (today : Zoned)
       (root_dir token : String) (year : Int),
      validate_year today year = false →
      download_inputs readSrcDir downloadDirExists createDirResult
          readDownloadDir net writeFile today root_dir token year =
        ⟨[Diagnostic.yearError year], [], [], [], RunOutcome.earlyReturn⟩) := by
  have hiff : ∀ (today : Zoned) (year : Int),
      validate_year today year = true ↔ 2015 ≤ year ∧ year ≤ today.year := by
    intro today year
    unfold validate_year
    simp [Bool.and_eq_true, decide_eq_true_eq]
  refine ⟨hiff, ?_, fun year => rfl, ?_⟩
  · intro today
    constructor
    · rw [Bool.eq_false_iff]
      intro hcon
      rcases (hiff today 2014).mp hcon with ⟨h1, _⟩
      omega
    · rw [Bool.eq_false_iff]
      intro hcon
      rcases (hiff today (today.year + 1)).mp hcon with ⟨_, h2⟩
      omega
  · intro readSrcDir downloadDirExists createDirResult readDownloadDir net
      writeFile today root_dir token year h
    simp only [download_inputs, h, Bool.not_false, if_true]

/-- C6 witness: year 2014 makes the run return early at once. -/
theorem validate_year_range_witness :
    download_inputs (Except.ok scenarioEntries) true (Except.ok ())
        (Except.ok []) netOk writeOk sampleToday sampleRoot sampleToken 2014 =
      ⟨[Diagnostic.yearError 2014], [], [], [], RunOutcome.earlyReturn⟩ :=
  validate_year_range.2.2.2 (Except.ok scenarioEntries) true (Except.ok ())
    (Except.ok []) netOk writeOk sampleToday sampleRoot sampleToken 2014
    (by decide)

/-- C8: when every discovered day already lies in the cached set, as after
a fully successful prior run with an unchanged declared set, the run issues
no network request: every day is skipped by the cached-set membership test
before any fetch, so there are no requests, no write calls, and no
writes. -/
theorem second_run_no_requests :
    ∀ (entries cacheEntries : List String) (downloadDirExists : Bool)
      (createDirResult : Except Unit Unit)
      (net : String → Except Unit String)
      (writeFile : String → String → Except Unit Unit) (today : Zoned)
      (root_dir token : String) (year : Int),
      (∀ d ∈ (entries.filterMap file_stem).filter DAY_REGEX,
        d ∈ cacheEntries.filterMap file_stem) →
      (download_inputs (Except.ok entries) downloadDirExists createDirResult
          (Except.ok cacheEntries) net writeFile today root_dir token
          year).requests = [] ∧
      (download_inputs (Except.ok entries) downloadDirExists createDirResult
          (Except.ok cacheEntries) net writeFile today root_dir token
          year).writeCalls = [] ∧
      (download_inputs (Except.ok entries) downloadDirExists createDirResult
          (Except.ok cacheEntries) net writeFile today root_dir token
          year).writes = [] := by
  intro entries cacheEntries downloadDirExists createDirResult net writeFile
    today root_dir token year h
  have hrun : ∀ (tok2 dir2 : String),
      runDays
        (processDay net writeFile today year tok2 dir2
          (cacheEntries.filterMap file_stem))
        ((entries.filterMap file_stem).filter DAY_REGEX) = DayTrace.nil := by
    intro tok2 dir2
    refine runDays_all_nil _ _ (fun d hd => ?_)
    exact processDay_cached net writeFile today year tok2 dir2 _ d
      (List.elem_eq_true_of_mem (h d hd))
  simp only [download_inputs, list_days]
  split
  · exact ⟨rfl, rfl, rfl⟩
  · split
    · exact ⟨rfl, rfl, rfl⟩
    · rw [hrun]
      exact ⟨rfl, rfl, rfl⟩

/-- C8 witness: a cache listing already holding the one declared day makes
the run issue no request. -/
theorem second_run_no_requests_witness :
    (download_inputs (Except.ok [String.mk ['d', 'a', 'y', '0', '7', '.', 'r', 's']])
        true (Except.ok ())
        (Except.ok [String.mk ['d', 'a', 'y', '0', '7', '.', 't', 'x', 't']])
        netOk writeOk sampleToday sampleRoot sampleToken 2024).requests = [] :=
  (second_run_no_requests [String.mk ['d', 'a', 'y', '0', '7', '.', 'r', 's']]
    [String.mk ['d', 'a', 'y', '0', '7', '.', 't', 'x', 't']] true
    (Except.ok ()) netOk writeOk sampleToday sampleRoot sampleToken 2024
    (by decide)).1

/-- C3: for a day whose fetch fails, with either the Request error or the
not-released Date signal, the loop body issues no write call at all for
that day, so no cache file is created, truncated, or modified; conversely a
write call happens only for the day file of a fetch that returned
successfully, carrying exactly the fetched text. -/
theorem no_write_without_successful_fetch :
    (∀ (net : String → Except Unit String)
       (writeFile : String → String → Except Unit Unit) (today : Zoned)
       (year : Int) (tok dir : String) (cached : List String) (day : String)
       (n : Int) (e : Error),
      parse_i8 (strSliceFrom day 3) = some n →
      (fetch_input net today tok year n).1 = Except.error e →
      (processDay net writeFile today year tok dir cached day).writeCalls = [] ∧
      (processDay net writeFile today year tok dir cached day).writes = []) ∧
    (∀ (net : String → Except Unit String)
       (writeFile : String → String → Except Unit Unit) (today : Zoned)
       (year : Int) (tok dir : String) (cached : List String) (day : String),
      (processDay net writeFile today year tok dir cached day).writeCalls ≠ [] →
      ∃ (n : Int) (inp : String),
        parse_i8 (strSliceFrom day 3) = some n ∧
        (fetch_input net today tok year n).1 = Except.ok inp ∧
        (processDay net writeFile today year tok dir cached day).writeCalls =
          [(dir ++ slashStr ++ day ++ txtSuffix, inp)]) := by
  constructor
  · intro net writeFile today year tok dir cached day n e hp hf
    simp only [processDay, hp, cargo_error, hf]
    split
    · exact ⟨rfl, rfl⟩
    · split
      · exact ⟨rfl, rfl⟩
      · exact ⟨rfl, rfl⟩
  · intro net writeFile today year tok dir cached day hw
    revert hw
    simp only [processDay]
    split
    · intro hw
      exact absurd rfl hw
    · rename_i hnc
      split
      · intro hw
        exact absurd rfl hw
      · rename_i n hp
        split
        · intro hw
          exact absurd rfl hw
        · rcases hf : (fetch_input net today tok year n).1 with e | inp
          · simp only [cargo_error, hf]
            intro hw
            exact absurd rfl hw
          · simp only [cargo_error, hf]
            split
            · intro _
              exact ⟨n, inp, hp, hf, rfl⟩
            · intro _
              exact ⟨n, inp, hp, hf, rfl⟩

/-- C3 witness: a day gated by the release instant, and a day whose
transport fails, both produce no write call. -/
theorem no_write_without_successful_fetch_witness :
    (processDay netOk writeOk ⟨0, 2024⟩ 2024 sampleToken sampleRoot []
        day07str).writeCalls = [] ∧
    (processDay netFails writeOk sampleToday 2024 sampleToken sampleRoot []
        (String.mk ['d', 'a', 'y', '0', '2'])).writeCalls = [] :=
  ⟨(no_write_without_successful_fetch.1 netOk writeOk ⟨0, 2024⟩ 2024
      sampleToken sampleRoot [] day07str 7
      (Error.Date 7 (releaseInstant 2024 7)) (by decide) (by rfl)).1,
   (no_write_without_successful_fetch.1 netFails writeOk sampleToday 2024
      sampleToken sampleRoot [] (String.mk ['d', 'a', 'y', '0', '2']) 2
      (Error.Request (aocInputUrl 2024 2)) (by decide) (by rfl)).1⟩

/-- C10: every name matching the discovery pattern has a suffix of two
ASCII digits denoting a value between 0 and 29, so parsing it as a signed
eight-bit integer always succeeds and the panic branch of the loop body is
unreachable for discovered names. -/
theorem discovered_day_parse_total :
    ∀ s : String, DAY_REGEX s = true →
      (∃ n : Int, parse_i8 (strSliceFrom s 3) = some n ∧ 0 ≤ n ∧ n ≤ 29) ∧
      (∀ (net : String → Except Unit String)
         (writeFile : String → String → Except Unit Unit) (today : Zoned)
         (year : Int) (tok dir : String) (cached : List String),
        (processDay net writeFile today year tok dir cached s).panicked =
          false) := by
  intro s hs
  obtain ⟨n, hp, h0, h29⟩ := day_name_parse s hs
  exact ⟨⟨n, hp, h0, h29⟩,
    fun net writeFile today year tok dir cached =>
      processDay_not_panicked net writeFile today year tok dir cached s n hp⟩

/-- C10 witness: the day07 name parses to 7 and its loop body never
panics. -/
theorem discovered_day_parse_total_witness :
    (∃ n : Int, parse_i8 (strSliceFrom day07str 3) = some n ∧
      0 ≤ n ∧ n ≤ 29) ∧
    (processDay netOk writeOk sampleToday 2024 sampleToken sampleRoot []
        day07str).panicked = false :=
  ⟨(discovered_day_parse_total day07str (by decide)).1,
   (discovered_day_parse_total day07str (by decide)).2 netOk writeOk
      sampleToday 2024 sampleToken sampleRoot []⟩

/-- The text served by the sample transports. -/
def puzzleInputStr : String := "puzzle input"

/-- C9: per-day failures are isolated.  The loop steps past any day whose
body did not panic; whenever year validation and both directory listings
succeed and the download directory is available, the run returns its
completion value no matter how the individual days fared; and in the
concrete three-day scenario in which the day01 transport fails, day12 is
not yet released, and day02 succeeds, the run finishes completed having
written exactly the day02 file, reported the one failure and the one
not-released skip, and issued exactly the two admitted requests. -/
theorem per_day_failure_isolation :
    (∀ (f : String → DayTrace) (d : String) (rest : List String),
      (f d).panicked = false →
      runDays f (d :: rest) = DayTrace.append (f d) (runDays f rest)) ∧
    (∀ (entries cacheEntries : List String) (downloadDirExists : Bool)
       (createDirResult : Except Unit Unit)
       (net : String → Except Unit String)
       (writeFile : String → String → Except Unit Unit) (today : Zoned)
       (root_dir token : String) (year : Int),
      validate_year today year = true →
      (downloadDirExists = true ∨ createDirResult = Except.ok ()) →
      (download_inputs (Except.ok entries) downloadDirExists createDirResult
          (Except.ok cacheEntries) net writeFile today root_dir token
          year).outcome = RunOutcome.completed) ∧
    download_inputs (Except.ok scenarioEntries) true (Except.ok ())
        (Except.ok []) netScenario writeOk sampleToday sampleRoot sampleToken
        2024 =
      ⟨[Diagnostic.report (Error.Request (aocInputUrl 2024 1)),
        Diagnostic.report (Error.Date 12 (releaseInstant 2024 12))],
       [aocInputUrl 2024 1, aocInputUrl 2024 2],
       [(day02txt, puzzleInputStr)], [day02txt], RunOutcome.completed⟩ := by
  refine ⟨runDays_cons, ?_, by rfl⟩
  intro entries cacheEntries downloadDirExists createDirResult net writeFile
    today root_dir token year hv hcr
  have hnp : (runDays
      (processDay net writeFile today year ("session=" ++ token)
        (root_dir ++ "/input") (cacheEntries.filterMap file_stem))
      ((entries.filterMap file_stem).filter DAY_REGEX)).panicked = false := by
    refine runDays_no_panic _ _ (fun d hd => ?_)
    have hre : DAY_REGEX d = true := (List.mem_filter.mp hd).2
    obtain ⟨n, hp, _, _⟩ := day_name_parse d hre
    exact processDay_not_panicked net writeFile today year _ _ _ d n hp
  rcases hcr with h | h
  · subst h
    simp only [download_inputs, hv, Bool.not_true, Bool.false_and,
      Bool.false_eq_true, if_false, list_days, hnp]
  · subst h
    simp only [download_inputs, hv, Bool.not_true, Bool.and_false,
      Bool.false_eq_true, if_false, list_days, hnp]

/-- C9 witness: the loop-continuation fact at a trivial loop body, and the
completion fact at the scenario inputs. -/
theorem per_day_failure_isolation_witness :
    runDays (fun _ => DayTrace.nil) (day01txt :: []) =
      DayTrace.append DayTrace.nil (runDays (fun _ => DayTrace.nil) []) ∧
    (download_inputs (Except.ok scenarioEntries) true (Except.ok ())
        (Except.ok []) netScenario writeOk sampleToday sampleRoot sampleToken
        2024).outcome = RunOutcome.completed :=
  ⟨per_day_failure_isolation.1 (fun _ => DayTrace.nil) day01txt [] rfl,
   per_day_failure_isolation.2.1 scenarioEntries [] true (Except.ok ())
      netScenario writeOk sampleToday sampleRoot sampleToken 2024 (by decide)
      (Or.inl rfl)⟩

/-- C1 counterexample: the error classifier marks a Request error as fatal,
so cargo_error prints it as one error-severity line, not a
warning-severity one, refuting the claim that a Request error is
classified non-fatal and reported on the warning channel. -/
theorem request_error_severity_cex :
    Error.fatal (Error.Request (aocInputUrl 2024 1)) = true ∧
    cargo_error (Except.error (Error.Request (aocInputUrl 2024 1)) :
        Except Error String) =
      (none, [Diagnostic.report (Error.Request (aocInputUrl 2024 1))]) ∧
    (Diagnostic.report (Error.Request (aocInputUrl 2024 1))).severity =
      Severity.error ∧
    Severity.error ≠ Severity.warning := by
  refine ⟨rfl, rfl, rfl, ?_⟩
  intro h
  exact Severity.noConfusion h

/-- C1 amended: a Request error during the fetch of one day is classified
fatal and reported on the error-severity channel; the loop body
nevertheless neither panics nor writes anything for that day, and the loop
continues with the remaining days, leaving the day unfetched. -/
theorem request_error_reported_continues :
    (∀ u : String, Error.fatal (Error.Request u) = true ∧
      (Diagnostic.report (Error.Request u)).severity = Severity.error) ∧
    (∀ (net : String → Except Unit String)
       (writeFile : String → String → Except Unit Unit) (today : Zoned)
       (year : Int) (tok dir : String) (cached : List String) (day : String)
       (n : Int) (u : String),
      cached.contains day = false →
      parse_i8 (strSliceFrom day 3) = some n →
      validate_day year n = true →
      (fetch_input net today tok year n).1 = Except.error (Error.Request u) →
      processDay net writeFile today year tok dir cached day =
        ⟨[Diagnostic.report (Error.Request u)],
         (fetch_input net today tok year n).2, [], [], false⟩) ∧
    (∀ (f : String → DayTrace) (d : String) (rest : List String),
      (f d).panicked = false →
      runDays f (d :: rest) = DayTrace.append (f d) (runDays f rest)) := by
  refine ⟨fun u => ⟨rfl, rfl⟩, ?_, runDays_cons⟩
  intro net writeFile today year tok dir cached day n u hc hp hv hf
  simp only [processDay, hc, hp, hv, cargo_error, hf, Bool.false_eq_true,
    if_false, Bool.not_true]

/-- C1 amended witness: the loop body at a failing transport produces
exactly the one error-severity report and no write, and the loop steps
past it. -/
theorem request_error_reported_continues_witness :
    processDay netFails writeOk sampleToday 2024 sampleToken sampleRoot []
        (String.mk ['d', 'a', 'y', '0', '2']) =
      ⟨[Diagnostic.report (Error.Request (aocInputUrl 2024 2))],
       (fetch_input netFails sampleToday sampleToken 2024 2).2, [], [],
       false⟩ ∧
    runDays (fun _ => DayTrace.nil) (day02txt :: []) =
      DayTrace.append DayTrace.nil (runDays (fun _ => DayTrace.nil) []) :=
  ⟨request_error_reported_continues.2.1 netFails writeOk sampleToday 2024
      sampleToken sampleRoot [] (String.mk ['d', 'a', 'y', '0', '2']) 2
      (aocInputUrl 2024 2) (by decide) (by decide) (by decide) (by rfl),
   request_error_reported_continues.2.2 (fun _ => DayTrace.nil) day02txt []
      rfl⟩

/-- Source listing for the write-failure counterexample run. -/
def cexEntries : List String := ["day01.rs", "day02.rs"]

/-- C2 counterexample: a run in which writing the day01 output file fails
with an I/O error still fetches and writes day02 afterwards and still
returns its completion value, refuting the claim that every I/O error
aborts the entire run with no further days processed.  The error is
nevertheless classified fatal by the classifier. -/
theorem io_error_abort_cex :
    download_inputs (Except.ok cexEntries) true (Except.ok ()) (Except.ok [])
        netOk writeFailsDay01 sampleToday sampleRoot sampleToken 2024 =
      ⟨[Diagnostic.report (Error.IOError day01txt)],
       [aocInputUrl 2024 1, aocInputUrl 2024 2],
       [(day01txt, puzzleInputStr), (day02txt, puzzleInputStr)],
       [day02txt], RunOutcome.completed⟩ ∧
    Error.fatal (Error.IOError day01txt) = true := ⟨rfl, rfl⟩

/-- C2 amended: an I/O error while listing the source directory, creating
the download directory, or listing the download directory is fatal and
makes the run return early with one error-severity line before any request
or write; an I/O error while writing the output file of one day is likewise
classified fatal and reported on the error-severity channel, but the loop
body finishes without panicking and the remaining days are still
processed. -/
theorem io_error_fatality :
    (∀ p : String, Error.fatal (Error.IOError p) = true ∧
      (Diagnostic.report (Error.IOError p)).severity = Severity.error) ∧
    (∀ (downloadDirExists : Bool) (createDirResult : Except Unit Unit)
       (readDownloadDir : Except Unit (List String))
       (net : String → Except Unit String)
       (writeFile : String → String → Except Unit Unit) (today : Zoned)
       (root_dir token : String) (year : Int),
      validate_year today year = true →
      download_inputs (Except.error ()) downloadDirExists createDirResult
          readDownloadDir net writeFile today root_dir token year =
        ⟨[Diagnostic.report (Error.IOError (root_dir ++ srcSuffix))], [], [],
         [], RunOutcome.earlyReturn⟩) ∧
    (∀ (entries : List String) (readDownloadDir : Except Unit (List String))
       (net : String → Except Unit String)
       (writeFile : String → String → Except Unit Unit) (today : Zoned)
       (root_dir token : String) (year : Int),
      validate_year today year = true →
      download_inputs (Except.ok entries) false (Except.error ())
          readDownloadDir net writeFile today root_dir token year =
        ⟨[Diagnostic.report (Error.IOError (root_dir ++ inputSuffix))], [],
         [], [], RunOutcome.earlyReturn⟩) ∧
    (∀ (entries : List String) (createDirResult : Except Unit Unit)
       (net : String → Except Unit String)
       (writeFile : String → String → Except Unit Unit) (today : Zoned)
       (root_dir token : String) (year : Int),
      validate_year today year = true →
      download_inputs (Except.ok entries) true createDirResult
          (Except.error ()) net writeFile today root_dir token year =
        ⟨[Diagnostic.report (Error.IOError (root_dir ++ inputSuffix))], [],
         [], [], RunOutcome.earlyReturn⟩) ∧
    (∀ (net : String → Except Unit String)
       (writeFile : String → String → Except Unit Unit) (today : Zoned)
       (year : Int) (tok dir : String) (cached : List String) (day : String)
       (n : Int) (inp : String),
      cached.contains day = false →
      parse_i8 (strSliceFrom day 3) = some n →
      validate_day year n = true →
      (fetch_input net today tok year n).1 = Except.ok inp →
      writeFile (dir ++ slashStr ++ day ++ txtSuffix) inp =
        Except.error () →
      processDay net writeFile today year tok dir cached day =
        ⟨[Diagnostic.report
            (Error.IOError (dir ++ slashStr ++ day ++ txtSuffix))],
         (fetch_input net today tok year n).2,
         [(dir ++ slashStr ++ day ++ txtSuffix, inp)], [], false⟩) := by
  refine ⟨fun p => ⟨rfl, rfl⟩, ?_, ?_, ?_, ?_⟩
  · intro downloadDirExists createDirResult readDownloadDir net writeFile
      today root_dir token year hv
    simp only [download_inputs, hv, Bool.not_true, Bool.false_eq_true,
      if_false, list_days, srcSuffix]
  · intro entries readDownloadDir net writeFile today root_dir token year hv
    simp only [download_inputs, hv, Bool.not_true, Bool.false_eq_true,
      if_false, list_days, inputSuffix, Bool.not_false, Bool.true_and,
      if_true]
  · intro entries createDirResult net writeFile today root_dir token year hv
    simp only [download_inputs, hv, Bool.not_true, Bool.false_eq_true,
      if_false, list_days, inputSuffix, Bool.false_and]
  · intro net writeFile today year tok dir cached day n inp hc hp hv hw
    intro hwf
    simp only [slashStr, txtSuffix] at hwf
    simp only [processDay, hc, hp, hv, cargo_error, hw, hwf,
      Bool.false_eq_true, if_false, Bool.not_true, slashStr, txtSuffix,
      List.nil_append]

/-- C2 amended witness: a failing source-directory listing returns early
with the one error line, and a failing day-file write inside the loop
leaves the body finished without panic. -/
theorem io_error_fatality_witness :
    download_inputs (Except.error ()) true (Except.ok ()) (Except.ok [])
        netOk writeOk sampleToday sampleRoot sampleToken 2024 =
      ⟨[Diagnostic.report (Error.IOError (sampleRoot ++ srcSuffix))], [], [],
       [], RunOutcome.earlyReturn⟩ ∧
    processDay netOk writeFailsDay01 sampleToday 2024 sampleToken
        (sampleRoot ++ inputSuffix) [] (String.mk ['d', 'a', 'y', '0', '1']) =
      ⟨[Diagnostic.report (Error.IOError
          ((sampleRoot ++ inputSuffix) ++ slashStr ++
            String.mk ['d', 'a', 'y', '0', '1'] ++ txtSuffix))],
       (fetch_input netOk sampleToday sampleToken 2024 1).2,
       [((sampleRoot ++ inputSuffix) ++ slashStr ++
          String.mk ['d', 'a', 'y', '0', '1'] ++ txtSuffix, puzzleInputStr)],
       [], false⟩ :=
  ⟨io_error_fatality.2.1 true (Except.ok ()) (Except.ok []) netOk writeOk
      sampleToday sampleRoot sampleToken 2024 (by decide),
   io_error_fatality.2.2.2.2 netOk writeFailsDay01 sampleToday 2024
      sampleToken (sampleRoot ++ inputSuffix) []
      (String.mk ['d', 'a', 'y', '0', '1']) 1 puzzleInputStr (by decide)
      (by decide) (by decide) (by rfl) (by rfl)⟩

end AocInputBuild
